import Mathlib

set_option maxRecDepth 100000

/-!
# Verification of the BeiDou B2a CNAV2 telemetry decoder block

Shallow embedding of `beidou_b2a_telemetry_decoder_cc.cc` (gnss-sdr).
The block's `general_work` method is modelled as a pure step function on an
explicit state record mirroring the member variables of the C++ class.
Floating-point `double` values (correlator amplitudes, time tags) are modelled
as rationals; machine counters as naturals.  The navigation-message collaborator
(`d_nav`, class `Beidou_Cnav2_Navigation_Message`, whose code is not part of the
two source files) is modelled as an oracle: its flag/field state lives in the
decoder state, and the effect of `d_nav.string_decoder` on that state is an
arbitrary input supplied to each invocation.
-/

namespace BeidouB2aTelemetry

/-- `#define CRC_ERROR_LIMIT 8` (line 45 of the source file). -/
def CRC_ERROR_LIMIT : ℕ := 8

/-- Modelled from the spec: constant from the missing header `beidou_cnav2.h`
(number of bits of the fixed preamble pattern). -/
def BEIDOU_CNAV2_PREAMBLE_LENGTH_BITS : ℕ := 24

/-- Modelled from the spec: constant from the missing header (symbol-to-bit
rate ratio used to expand the preamble bit pattern into symbols). -/
def BEIDOU_CNAV2_TELEMETRY_SYMBOLS_PER_PREAMBLE_BIT : ℕ := 1

/-- Modelled from the spec: constant from the missing header; the spec calls it
`preamble_symbol_count`.  `d_symbols_per_preamble` is set to this value. -/
def BEIDOU_CNAV2_PREAMBLE_LENGTH_SYMBOLS : ℕ := 24

/-- Modelled from the spec: constant from the missing header; the number of
symbols composing one full frame (preamble + data), the spec's `frame_length`
and the code's `required_symbols`. -/
def BEIDOU_CNAV2_STRING_SYMBOLS : ℕ := 600

/-- Modelled from the spec: constant from the missing header; one preamble
period in symbols (equal to one frame length). -/
def BEIDOU_CNAV2_PREAMBLE_PERIOD_SYMBOLS : ℕ := 600

/-- Modelled from the spec: constant from the missing header; the number of
data symbols of a frame (frame length minus preamble length). -/
def BEIDOU_CNAV2_DATA_SYMBOLS : ℕ := 576

/-- Modelled from the spec: the fixed, immutable preamble bit pattern
`BEIDOU_CNAV2_PREAMBLE` from the missing header (any fixed 24-bit pattern;
the claims depend only on its length and the ±1 expansion rule). -/
def BEIDOU_CNAV2_PREAMBLE_BITS : List ℕ :=
  [1, 1, 1, 0, 0, 0, 1, 0, 0, 1, 0, 0, 1, 1, 0, 1, 1, 1, 1, 0, 1, 0, 0, 0]

/-- Modelled from the spec: the fixed preamble duration in seconds subtracted
from the reported seconds-of-week (constant from the missing header). -/
def BEIDOU_CNAV2_PREAMBLE_DURATION_S : ℚ := 3 / 25

/-- Modelled from the spec: the fixed per-symbol code period in seconds by
which the time tag advances (constant from the missing header). -/
def BEIDOU_B2a_CODE_PERIOD : ℚ := 1 / 1000

/-- The fields of `Gnss_Synchro` read or written by this block: the prompt
correlation amplitude, the tracking timestamp, and the annotation fields. -/
structure Gnss_Synchro where
  Prompt_I : ℚ
  Tracking_sample_counter : ℕ
  PRN : ℕ
  Flag_valid_word : Bool
  TOW_at_current_symbol_ms : ℚ
deriving DecidableEq, Inhabited

/-- Modelled from the spec: the observable state of the Navigation Context
collaborator (`d_nav`, class `Beidou_Cnav2_Navigation_Message`, not among the
source files): CRC result, fresh time-of-week flag with its seconds-of-week
payload, the navigation-time-confirmed flag, and the slot-number update flag
with its satellite-type payload. -/
structure NavState where
  flag_CRC_test : Bool
  flag_TOW_new : Bool
  flag_TOW_set : Bool
  SOW : ℚ
  flag_update_slot_number : Bool
  SatType : ℕ
deriving DecidableEq, Inhabited

/-- The member variables of `beidou_b2a_telemetry_decoder_cc` that the
synchronizer logic reads or writes. -/
structure DecoderState where
  d_sample_counter : ℕ
  d_stat : ℕ
  d_preamble_index : ℕ
  d_flag_frame_sync : Bool
  d_TOW_at_current_symbol : ℚ
  delta_t : ℚ
  d_CRC_error_counter : ℕ
  d_flag_preamble : Bool
  d_preamble_time_samples : ℕ
  d_symbol_history : List Gnss_Synchro
  d_satellite_PRN : ℕ
  d_nav : NavState
deriving DecidableEq

/-- `d_symbols_per_preamble` (constructor, line 75). -/
def d_symbols_per_preamble : ℕ := BEIDOU_CNAV2_PREAMBLE_LENGTH_SYMBOLS

/-- `d_preambles_symbols`: the preamble bit pattern expanded into a ±1 symbol
template (constructor, lines 80–96): each bit repeated
`BEIDOU_CNAV2_TELEMETRY_SYMBOLS_PER_PREAMBLE_BIT` times, bit 1 ↦ +1, else −1. -/
def d_preambles_symbols : List ℤ :=
  BEIDOU_CNAV2_PREAMBLE_BITS.flatMap (fun b =>
    List.replicate BEIDOU_CNAV2_TELEMETRY_SYMBOLS_PER_PREAMBLE_BIT
      (if b = 1 then (1 : ℤ) else -1))

/-- The preamble correlation loop (lines 259–269): for each of the first
`d_symbols_per_preamble` history symbols, subtract the template value if the
observed amplitude is negative, else add it. -/
def preamble_corr (hist : List Gnss_Synchro) : ℤ :=
  ((List.range d_symbols_per_preamble).map (fun i =>
    if (hist.getD i default).Prompt_I < 0 then
      -(d_preambles_symbols.getD i 0)
    else
      d_preambles_symbols.getD i 0)).sum

/-- `corr_value` as computed by `general_work` (lines 240, 256–270): the
correlation runs only once the history holds more than `required_symbols`
entries, else the score stays 0. -/
def corrOf (hist : List Gnss_Synchro) : ℤ :=
  if BEIDOU_CNAV2_STRING_SYMBOLS < hist.length then preamble_corr hist else 0

/-- The symbol-to-bit conversion of `decode_string` (lines 134–151): the bit
string handed to `d_nav.string_decoder`, built from `frame_symbols[24 .. 24+288)`,
amplitude `> 0` ↦ bit `'1'` (`true`), else bit `'0'` (`false`). -/
def decode_string_data_bits (frame_symbols : List ℚ) : List Bool :=
  (List.range 288).map (fun j =>
    if 0 < frame_symbols.getD (24 + j) 0 then true else false)

/-- The claim's reading of the conversion (spec §4.4), for refinement
comparison: EVERY symbol of the array is converted to one bit. -/
def decode_string_data_bits_spec (frame_symbols : List ℚ) : List Bool :=
  frame_symbols.map (fun a => if 0 < a then true else false)

/-- The data-symbol extraction of the LOCKED decode branch (lines 316–331):
`string_symbols[i] = ±hist[i + d_symbols_per_preamble].Prompt_I` with the sign
of the last correlation resolving polarity; array of `BEIDOU_CNAV2_DATA_SYMBOLS`
entries zero-initialized, first `string_length` filled. -/
def extract_string_symbols (hist : List Gnss_Synchro) (corr : ℤ) : List ℚ :=
  (List.range BEIDOU_CNAV2_DATA_SYMBOLS).map (fun i =>
    if i < BEIDOU_CNAV2_STRING_SYMBOLS - d_symbols_per_preamble then
      (if 0 < corr then (hist.getD (i + d_symbols_per_preamble) default).Prompt_I
       else -((hist.getD (i + d_symbols_per_preamble) default).Prompt_I))
    else 0)

/-- Result of the frame-sync block: the updated state and, when a decode was
attempted, the bit string handed to the collaborator's string decoder. -/
structure SyncOut where
  st : DecoderState
  handed : Option (List Bool)
deriving DecidableEq

/-- The frame-sync state machine of `general_work` (lines 272–359), applied to
the state after the push/increment prologue.  `s.d_sample_counter` is the
already-incremented counter and `s.d_symbol_history` already contains the new
symbol.  `navDec` is the oracle: the collaborator state resulting from
`d_nav.string_decoder`, installed when (and only when) a decode is attempted.
The decode branch also performs the tail of `decode_string` (lines 154–198):
installing the decoder result and the slot-number/PRN update. -/
def frame_sync (s : DecoderState) (corr : ℤ) (navDec : NavState) : SyncOut :=
  if s.d_stat = 0 then
    (if (d_symbols_per_preamble : ℤ) ≤ |corr| then
      ⟨{ s with d_preamble_index := s.d_sample_counter,
                d_stat := 1,
                d_preamble_time_samples :=
                  (s.d_symbol_history.getD 0 default).Tracking_sample_counter }, none⟩
     else ⟨s, none⟩)
  else if s.d_stat = 1 then
    (if (d_symbols_per_preamble : ℤ) ≤ |corr| then
      let preamble_diff : ℤ := (s.d_sample_counter : ℤ) - (s.d_preamble_index : ℤ)
      let s1 := { s with d_preamble_time_samples :=
                    (s.d_symbol_history.getD 0 default).Tracking_sample_counter }
      if |preamble_diff - (BEIDOU_CNAV2_PREAMBLE_PERIOD_SYMBOLS : ℤ)| = 0 then
        ⟨{ s1 with d_preamble_index := s.d_sample_counter, d_stat := 2 }, none⟩
      else if (BEIDOU_CNAV2_PREAMBLE_PERIOD_SYMBOLS : ℤ) < preamble_diff then
        ⟨{ s1 with d_stat := 0 }, none⟩
      else ⟨s1, none⟩
     else ⟨s, none⟩)
  else if s.d_stat = 2 then
    (if s.d_sample_counter = s.d_preamble_index + BEIDOU_CNAV2_STRING_SYMBOLS then
      let string_symbols := extract_string_symbols s.d_symbol_history corr
      let handed := some (decode_string_data_bits string_symbols)
      let nav2 := if navDec.flag_update_slot_number then
                    { navDec with flag_update_slot_number := false }
                  else navDec
      let sat2 := if navDec.flag_update_slot_number then navDec.SatType
                  else s.d_satellite_PRN
      let s1 := { s with d_nav := nav2, d_satellite_PRN := sat2 }
      if nav2.flag_CRC_test then
        ⟨{ s1 with d_CRC_error_counter := 0,
                   d_flag_preamble := true,
                   d_preamble_index := s.d_sample_counter,
                   d_flag_frame_sync := true }, handed⟩
      else
        let s2 := { s1 with d_CRC_error_counter := s.d_CRC_error_counter + 1,
                            d_preamble_index := s.d_sample_counter }
        if CRC_ERROR_LIMIT < s.d_CRC_error_counter + 1 then
          ⟨{ s2 with d_flag_frame_sync := false, d_stat := 0 }, handed⟩
        else ⟨s2, handed⟩
     else ⟨s, none⟩)
  else ⟨s, none⟩

/-- The time-of-week update (lines 361–372): if a valid preamble was decoded on
this symbol and the collaborator reports a fresh time-of-week, re-anchor the tag
to the reported seconds-of-week minus the preamble duration, truncated to
millisecond resolution, and clear the fresh flag; otherwise advance the tag by
one code period. -/
def tow_update (s : DecoderState) : DecoderState :=
  if s.d_flag_preamble && s.d_nav.flag_TOW_new then
    { s with
        d_TOW_at_current_symbol :=
          (⌊(s.d_nav.SOW - BEIDOU_CNAV2_PREAMBLE_DURATION_S) * 1000⌋ : ℚ) / 1000
        d_nav := { s.d_nav with flag_TOW_new := false } }
  else
    { s with d_TOW_at_current_symbol :=
        s.d_TOW_at_current_symbol + BEIDOU_B2a_CODE_PERIOD }

/-- The output annotation (lines 381–392): validity flag, PRN and time tag
(minus the `delta_t` correction) stamped onto the copied input symbol. -/
def annotate_out (s : DecoderState) (current_symbol : Gnss_Synchro) : Gnss_Synchro :=
  { current_symbol with
      Flag_valid_word := s.d_flag_frame_sync && s.d_nav.flag_TOW_set,
      PRN := s.d_satellite_PRN,
      TOW_at_current_symbol_ms := s.d_TOW_at_current_symbol - s.delta_t }

/-- The history eviction epilogue (lines 414–418): once the history size
exceeds `required_symbols`, the oldest symbol is removed. -/
def evict (s : DecoderState) : DecoderState :=
  if BEIDOU_CNAV2_STRING_SYMBOLS < s.d_symbol_history.length then
    { s with d_symbol_history := s.d_symbol_history.tail }
  else s

/-- The full result of one `general_work` invocation: new state, the annotated
output symbol, the numbers of symbols consumed (`consume_each(1)`, line 251)
and produced (`return 1`, line 422), and the bit string handed to the
collaborator's string decoder if a decode was attempted. -/
structure WorkResult where
  state : DecoderState
  out : Gnss_Synchro
  consumed : ℕ
  produced : ℕ
  handed : Option (List Bool)

/-- The prologue of `general_work` (lines 246–253): the incoming symbol is
appended to the history, the sample counter advances by one, and the
per-invocation preamble flag is reset. -/
def pushed (s : DecoderState) (x : Gnss_Synchro) : DecoderState :=
  { s with d_symbol_history := s.d_symbol_history ++ [x],
           d_sample_counter := s.d_sample_counter + 1,
           d_flag_preamble := false }

/-- One invocation of `general_work` (lines 237–423): copy the input symbol,
push it into the history, advance the sample counter, consume one input; run
the correlator (guarded by history size), the frame-sync state machine, the
time-of-week update, the output annotation and the history eviction; emit
exactly one output symbol. -/
def general_work (s : DecoderState) (input : Gnss_Synchro) (navDec : NavState) :
    WorkResult :=
  let s0 := pushed s input
  let corr_value := corrOf s0.d_symbol_history
  let fs := frame_sync s0 corr_value navDec
  let s2 := tow_update fs.st
  { state := evict s2,
    out := annotate_out s2 input,
    consumed := 1,
    produced := 1,
    handed := fs.handed }

/-- The constructor's initialization of the member variables
(lines 97–111), parameterized by the satellite PRN. -/
def initState (prn : ℕ) : DecoderState :=
  { d_sample_counter := 0,
    d_stat := 0,
    d_preamble_index := 0,
    d_flag_frame_sync := false,
    d_TOW_at_current_symbol := 0,
    delta_t := 0,
    d_CRC_error_counter := 0,
    d_flag_preamble := false,
    d_preamble_time_samples := 0,
    d_symbol_history := [],
    d_satellite_PRN := prn,
    d_nav := default }

/-- Repeated invocations of `general_work` over a stream of (input symbol,
decoder-oracle) pairs. -/
def run (s : DecoderState) (xs : List (Gnss_Synchro × NavState)) : DecoderState :=
  xs.foldl (fun t p => (general_work t p.1 p.2).state) s

/-- Negation of a symbol's amplitude, all other fields equal (the polarity
flip the spec's invariance property quantifies over). -/
def negSym (g : Gnss_Synchro) : Gnss_Synchro := { g with Prompt_I := -g.Prompt_I }

/-- A concrete test symbol with amplitude +1. -/
def oneSym : Gnss_Synchro :=
  { Prompt_I := 1, Tracking_sample_counter := 3, PRN := 0,
    Flag_valid_word := false, TOW_at_current_symbol_ms := 0 }

/-- A concrete test symbol with amplitude 0. -/
def zeroSym : Gnss_Synchro := { oneSym with Prompt_I := 0 }

/-- Concrete symbols reproducing the preamble template exactly. -/
def tmplSyms : List Gnss_Synchro :=
  d_preambles_symbols.map (fun t => { oneSym with Prompt_I := (t : ℚ) })

/-- A concrete full window: the preamble template followed by +1 symbols. -/
def fullHist : List Gnss_Synchro := tmplSyms ++ List.replicate 576 oneSym

/-- A concrete over-full window whose first amplitude is exactly 0 and whose
remaining head matches the preamble template. -/
def zeroFirstHist : List Gnss_Synchro :=
  zeroSym :: (d_preambles_symbols.tail.map (fun t => { oneSym with Prompt_I := (t : ℚ) }) ++
    List.replicate 577 oneSym)

/-- A concrete over-full window matching the preamble template, no zeros. -/
def fullHist601 : List Gnss_Synchro := fullHist ++ [oneSym]

/-- Concrete decoder state builder for tests. -/
def mkState (counter idx stat crc : ℕ) (sync : Bool) (hist : List Gnss_Synchro) :
    DecoderState :=
  { d_sample_counter := counter, d_stat := stat, d_preamble_index := idx,
    d_flag_frame_sync := sync, d_TOW_at_current_symbol := 0, delta_t := 0,
    d_CRC_error_counter := crc, d_flag_preamble := false,
    d_preamble_time_samples := 0, d_symbol_history := hist,
    d_satellite_PRN := 1, d_nav := default }

/-- A concrete oracle response: CRC passes, fresh time-of-week available. -/
def navPass : NavState :=
  { flag_CRC_test := true, flag_TOW_new := true, flag_TOW_set := true,
    SOW := 10, flag_update_slot_number := false, SatType := 0 }

/-- A concrete test stream segment: the tail of the preamble template followed
by filler symbols (599 pairs), as fed between two preamble occurrences. -/
def c1ys1 : List (Gnss_Synchro × NavState) :=
  (d_preambles_symbols.tail.map (fun t => { oneSym with Prompt_I := (t : ℚ) }) ++
    List.replicate 576 oneSym).map (fun g => (g, (default : NavState)))

/-! ## Stage lemmas -/

theorem general_work_state (s : DecoderState) (x : Gnss_Synchro) (nav : NavState) :
    (general_work s x nav).state =
      evict (tow_update
        (frame_sync (pushed s x) (corrOf (s.d_symbol_history ++ [x])) nav).st) := rfl

theorem general_work_handed (s : DecoderState) (x : Gnss_Synchro) (nav : NavState) :
    (general_work s x nav).handed =
      (frame_sync (pushed s x) (corrOf (s.d_symbol_history ++ [x])) nav).handed := rfl

theorem run_nil (s : DecoderState) : run s [] = s := rfl

theorem run_cons (s : DecoderState) (p : Gnss_Synchro × NavState)
    (xs : List (Gnss_Synchro × NavState)) :
    run s (p :: xs) = run (general_work s p.1 p.2).state xs := rfl

theorem run_append (s : DecoderState) (xs ys : List (Gnss_Synchro × NavState)) :
    run s (xs ++ ys) = run (run s xs) ys :=
  List.foldl_append ..

theorem tow_update_d_stat (s : DecoderState) : (tow_update s).d_stat = s.d_stat := by
  unfold tow_update; split <;> rfl

theorem tow_update_d_preamble_index (s : DecoderState) :
    (tow_update s).d_preamble_index = s.d_preamble_index := by
  unfold tow_update; split <;> rfl

theorem tow_update_d_sample_counter (s : DecoderState) :
    (tow_update s).d_sample_counter = s.d_sample_counter := by
  unfold tow_update; split <;> rfl

theorem tow_update_d_CRC_error_counter (s : DecoderState) :
    (tow_update s).d_CRC_error_counter = s.d_CRC_error_counter := by
  unfold tow_update; split <;> rfl

theorem tow_update_d_flag_frame_sync (s : DecoderState) :
    (tow_update s).d_flag_frame_sync = s.d_flag_frame_sync := by
  unfold tow_update; split <;> rfl

theorem tow_update_d_symbol_history (s : DecoderState) :
    (tow_update s).d_symbol_history = s.d_symbol_history := by
  unfold tow_update; split <;> rfl

theorem tow_update_d_preamble_time_samples (s : DecoderState) :
    (tow_update s).d_preamble_time_samples = s.d_preamble_time_samples := by
  unfold tow_update; split <;> rfl

theorem evict_d_stat (s : DecoderState) : (evict s).d_stat = s.d_stat := by
  unfold evict; split <;> rfl

theorem evict_d_preamble_index (s : DecoderState) :
    (evict s).d_preamble_index = s.d_preamble_index := by
  unfold evict; split <;> rfl

theorem evict_d_sample_counter (s : DecoderState) :
    (evict s).d_sample_counter = s.d_sample_counter := by
  unfold evict; split <;> rfl

theorem evict_d_CRC_error_counter (s : DecoderState) :
    (evict s).d_CRC_error_counter = s.d_CRC_error_counter := by
  unfold evict; split <;> rfl

theorem evict_d_flag_frame_sync (s : DecoderState) :
    (evict s).d_flag_frame_sync = s.d_flag_frame_sync := by
  unfold evict; split <;> rfl

theorem evict_d_preamble_time_samples (s : DecoderState) :
    (evict s).d_preamble_time_samples = s.d_preamble_time_samples := by
  unfold evict; split <;> rfl

theorem evict_d_symbol_history (s : DecoderState) :
    (evict s).d_symbol_history =
      if BEIDOU_CNAV2_STRING_SYMBOLS < s.d_symbol_history.length then
        s.d_symbol_history.tail
      else s.d_symbol_history := by
  unfold evict; split <;> rfl

/-! ### Frame-sync case analysis -/

theorem frame_sync_stat0_detect (s : DecoderState) (corr : ℤ) (nav : NavState)
    (h0 : s.d_stat = 0) (hc : (d_symbols_per_preamble : ℤ) ≤ |corr|) :
    frame_sync s corr nav =
      ⟨{ s with d_preamble_index := s.d_sample_counter,
                d_stat := 1,
                d_preamble_time_samples :=
                  (s.d_symbol_history.getD 0 default).Tracking_sample_counter }, none⟩ := by
  simp [frame_sync, h0, hc]

theorem frame_sync_stat0_idle (s : DecoderState) (corr : ℤ) (nav : NavState)
    (h0 : s.d_stat = 0) (hc : ¬ (d_symbols_per_preamble : ℤ) ≤ |corr|) :
    frame_sync s corr nav = ⟨s, none⟩ := by
  simp [frame_sync, h0, hc]

theorem frame_sync_stat1_idle (s : DecoderState) (corr : ℤ) (nav : NavState)
    (h1 : s.d_stat = 1) (hc : ¬ (d_symbols_per_preamble : ℤ) ≤ |corr|) :
    frame_sync s corr nav = ⟨s, none⟩ := by
  simp [frame_sync, h1, hc]

theorem frame_sync_stat1_lock (s : DecoderState) (corr : ℤ) (nav : NavState)
    (h1 : s.d_stat = 1) (hc : (d_symbols_per_preamble : ℤ) ≤ |corr|)
    (heq : s.d_sample_counter = s.d_preamble_index + BEIDOU_CNAV2_PREAMBLE_PERIOD_SYMBOLS) :
    frame_sync s corr nav =
      ⟨{ s with d_preamble_time_samples :=
                  (s.d_symbol_history.getD 0 default).Tracking_sample_counter,
                d_preamble_index := s.d_sample_counter,
                d_stat := 2 }, none⟩ := by
  have hd : |((s.d_sample_counter : ℤ) - (s.d_preamble_index : ℤ)) -
      (BEIDOU_CNAV2_PREAMBLE_PERIOD_SYMBOLS : ℤ)| = 0 := by
    rw [abs_eq_zero]; omega
  simp [frame_sync, h1, hc, hd]

theorem frame_sync_stat1_small (s : DecoderState) (corr : ℤ) (nav : NavState)
    (h1 : s.d_stat = 1) (hc : (d_symbols_per_preamble : ℤ) ≤ |corr|)
    (hlt : s.d_sample_counter < s.d_preamble_index + BEIDOU_CNAV2_PREAMBLE_PERIOD_SYMBOLS) :
    frame_sync s corr nav =
      ⟨{ s with d_preamble_time_samples :=
                  (s.d_symbol_history.getD 0 default).Tracking_sample_counter }, none⟩ := by
  have hd : ¬ |((s.d_sample_counter : ℤ) - (s.d_preamble_index : ℤ)) -
      (BEIDOU_CNAV2_PREAMBLE_PERIOD_SYMBOLS : ℤ)| = 0 := by
    rw [abs_eq_zero]; omega
  have hgt : ¬ (BEIDOU_CNAV2_PREAMBLE_PERIOD_SYMBOLS : ℤ) <
      (s.d_sample_counter : ℤ) - (s.d_preamble_index : ℤ) := by omega
  simp [frame_sync, h1, hc, hd, hgt]

theorem frame_sync_stat1_big (s : DecoderState) (corr : ℤ) (nav : NavState)
    (h1 : s.d_stat = 1) (hc : (d_symbols_per_preamble : ℤ) ≤ |corr|)
    (hgt : s.d_preamble_index + BEIDOU_CNAV2_PREAMBLE_PERIOD_SYMBOLS < s.d_sample_counter) :
    frame_sync s corr nav =
      ⟨{ s with d_preamble_time_samples :=
                  (s.d_symbol_history.getD 0 default).Tracking_sample_counter,
                d_stat := 0 }, none⟩ := by
  have hd : ¬ |((s.d_sample_counter : ℤ) - (s.d_preamble_index : ℤ)) -
      (BEIDOU_CNAV2_PREAMBLE_PERIOD_SYMBOLS : ℤ)| = 0 := by
    rw [abs_eq_zero]; omega
  have hgt2 : (BEIDOU_CNAV2_PREAMBLE_PERIOD_SYMBOLS : ℤ) <
      (s.d_sample_counter : ℤ) - (s.d_preamble_index : ℤ) := by omega
  simp [frame_sync, h1, hc, hd, hgt2]

theorem frame_sync_stat2_idle (s : DecoderState) (corr : ℤ) (nav : NavState)
    (h2 : s.d_stat = 2)
    (hne : s.d_sample_counter ≠ s.d_preamble_index + BEIDOU_CNAV2_STRING_SYMBOLS) :
    frame_sync s corr nav = ⟨s, none⟩ := by
  simp [frame_sync, h2, hne]

theorem frame_sync_stat2_pass (s : DecoderState) (corr : ℤ) (nav : NavState)
    (h2 : s.d_stat = 2)
    (heq : s.d_sample_counter = s.d_preamble_index + BEIDOU_CNAV2_STRING_SYMBOLS)
    (hcrc : nav.flag_CRC_test = true) :
    frame_sync s corr nav =
      ⟨{ s with d_nav := if nav.flag_update_slot_number then
                  { nav with flag_update_slot_number := false } else nav,
                d_satellite_PRN := if nav.flag_update_slot_number then nav.SatType
                  else s.d_satellite_PRN,
                d_CRC_error_counter := 0,
                d_flag_preamble := true,
                d_preamble_index := s.d_sample_counter,
                d_flag_frame_sync := true },
        some (decode_string_data_bits
          (extract_string_symbols s.d_symbol_history corr))⟩ := by
  by_cases hs : nav.flag_update_slot_number = true <;>
    simp [frame_sync, h2, heq, hcrc, hs]

theorem frame_sync_stat2_fail_stay (s : DecoderState) (corr : ℤ) (nav : NavState)
    (h2 : s.d_stat = 2)
    (heq : s.d_sample_counter = s.d_preamble_index + BEIDOU_CNAV2_STRING_SYMBOLS)
    (hcrc : nav.flag_CRC_test = false)
    (hlim : s.d_CRC_error_counter + 1 ≤ CRC_ERROR_LIMIT) :
    frame_sync s corr nav =
      ⟨{ s with d_nav := if nav.flag_update_slot_number then
                  { nav with flag_update_slot_number := false } else nav,
                d_satellite_PRN := if nav.flag_update_slot_number then nav.SatType
                  else s.d_satellite_PRN,
                d_CRC_error_counter := s.d_CRC_error_counter + 1,
                d_preamble_index := s.d_sample_counter },
        some (decode_string_data_bits
          (extract_string_symbols s.d_symbol_history corr))⟩ := by
  have hnl : ¬ CRC_ERROR_LIMIT < s.d_CRC_error_counter + 1 := by omega
  by_cases hs : nav.flag_update_slot_number = true <;>
    simp [frame_sync, h2, heq, hcrc, hs, hnl]

theorem frame_sync_stat2_fail_demote (s : DecoderState) (corr : ℤ) (nav : NavState)
    (h2 : s.d_stat = 2)
    (heq : s.d_sample_counter = s.d_preamble_index + BEIDOU_CNAV2_STRING_SYMBOLS)
    (hcrc : nav.flag_CRC_test = false)
    (hlim : CRC_ERROR_LIMIT < s.d_CRC_error_counter + 1) :
    frame_sync s corr nav =
      ⟨{ s with d_nav := if nav.flag_update_slot_number then
                  { nav with flag_update_slot_number := false } else nav,
                d_satellite_PRN := if nav.flag_update_slot_number then nav.SatType
                  else s.d_satellite_PRN,
                d_CRC_error_counter := s.d_CRC_error_counter + 1,
                d_preamble_index := s.d_sample_counter,
                d_flag_frame_sync := false,
                d_stat := 0 },
        some (decode_string_data_bits
          (extract_string_symbols s.d_symbol_history corr))⟩ := by
  by_cases hs : nav.flag_update_slot_number = true <;>
    simp [frame_sync, h2, heq, hcrc, hs, hlim]

theorem frame_sync_d_symbol_history (s : DecoderState) (corr : ℤ) (nav : NavState) :
    (frame_sync s corr nav).st.d_symbol_history = s.d_symbol_history := by
  unfold frame_sync
  dsimp only
  repeat' split
  all_goals rfl

theorem frame_sync_d_sample_counter (s : DecoderState) (corr : ℤ) (nav : NavState) :
    (frame_sync s corr nav).st.d_sample_counter = s.d_sample_counter := by
  unfold frame_sync
  dsimp only
  repeat' split
  all_goals rfl

/-- The state after one invocation agrees with the frame-sync stage on all the
synchronization fields (the time-of-week update and the eviction touch none of
them), and the counter/history bookkeeping of the prologue/epilogue. -/
theorem step_projections (s : DecoderState) (x : Gnss_Synchro) (nav : NavState) :
    (general_work s x nav).state.d_stat =
      (frame_sync (pushed s x) (corrOf (s.d_symbol_history ++ [x])) nav).st.d_stat ∧
    (general_work s x nav).state.d_preamble_index =
      (frame_sync (pushed s x) (corrOf (s.d_symbol_history ++ [x])) nav).st.d_preamble_index ∧
    (general_work s x nav).state.d_CRC_error_counter =
      (frame_sync (pushed s x) (corrOf (s.d_symbol_history ++ [x])) nav).st.d_CRC_error_counter ∧
    (general_work s x nav).state.d_flag_frame_sync =
      (frame_sync (pushed s x) (corrOf (s.d_symbol_history ++ [x])) nav).st.d_flag_frame_sync ∧
    (general_work s x nav).state.d_preamble_time_samples =
      (frame_sync (pushed s x) (corrOf (s.d_symbol_history ++ [x])) nav).st.d_preamble_time_samples ∧
    (general_work s x nav).state.d_sample_counter = s.d_sample_counter + 1 ∧
    (general_work s x nav).state.d_symbol_history =
      (if BEIDOU_CNAV2_STRING_SYMBOLS < (s.d_symbol_history ++ [x]).length then
        (s.d_symbol_history ++ [x]).tail
       else s.d_symbol_history ++ [x]) := by
  rw [general_work_state]
  refine ⟨by rw [evict_d_stat, tow_update_d_stat],
          by rw [evict_d_preamble_index, tow_update_d_preamble_index],
          by rw [evict_d_CRC_error_counter, tow_update_d_CRC_error_counter],
          by rw [evict_d_flag_frame_sync, tow_update_d_flag_frame_sync],
          by rw [evict_d_preamble_time_samples, tow_update_d_preamble_time_samples],
          by rw [evict_d_sample_counter, tow_update_d_sample_counter,
                 frame_sync_d_sample_counter]; rfl,
          by rw [evict_d_symbol_history, tow_update_d_symbol_history,
                 frame_sync_d_symbol_history]; rfl⟩

/-! ### Scenario step lemmas -/

/-- In `PRESYNC`, a symbol whose arrival leaves the counter strictly inside the
preamble period neither demotes, promotes, nor moves the preamble index. -/
theorem step_stat1_hold (s : DecoderState) (x : Gnss_Synchro) (nav : NavState)
    (h1 : s.d_stat = 1)
    (hlt : s.d_sample_counter + 1 <
      s.d_preamble_index + BEIDOU_CNAV2_PREAMBLE_PERIOD_SYMBOLS) :
    (general_work s x nav).state.d_stat = 1 ∧
    (general_work s x nav).state.d_preamble_index = s.d_preamble_index ∧
    (general_work s x nav).state.d_sample_counter = s.d_sample_counter + 1 := by
  obtain ⟨hs, hi, -, -, -, hc, -⟩ := step_projections s x nav
  by_cases hdet : (d_symbols_per_preamble : ℤ) ≤ |corrOf (s.d_symbol_history ++ [x])|
  · rw [frame_sync_stat1_small (pushed s x) _ nav h1 hdet hlt] at hs hi
    exact ⟨hs.trans h1, hi, hc⟩
  · rw [frame_sync_stat1_idle (pushed s x) _ nav h1 hdet] at hs hi
    exact ⟨hs.trans h1, hi, hc⟩

/-- In `LOCKED`, a symbol whose arrival does not put the counter exactly one
frame length past the preamble index changes no synchronization field. -/
theorem step_stat2_hold (s : DecoderState) (x : Gnss_Synchro) (nav : NavState)
    (h2 : s.d_stat = 2)
    (hne : s.d_sample_counter + 1 ≠ s.d_preamble_index + BEIDOU_CNAV2_STRING_SYMBOLS) :
    (general_work s x nav).state.d_stat = 2 ∧
    (general_work s x nav).state.d_preamble_index = s.d_preamble_index ∧
    (general_work s x nav).state.d_CRC_error_counter = s.d_CRC_error_counter ∧
    (general_work s x nav).state.d_flag_frame_sync = s.d_flag_frame_sync ∧
    (general_work s x nav).state.d_sample_counter = s.d_sample_counter + 1 := by
  obtain ⟨hs, hi, he, hf, -, hc, -⟩ := step_projections s x nav
  rw [frame_sync_stat2_idle (pushed s x) _ nav h2 hne] at hs hi he hf
  exact ⟨hs.trans h2, hi, he, hf, hc⟩

/-- In `NO_LOCK`, a full-strength correlation promotes to `PRESYNC`, records
the current sample counter as the preamble index, and records the tracking
timestamp of the oldest symbol of the window as the time anchor. -/
theorem step_stat0_detect (s : DecoderState) (x : Gnss_Synchro) (nav : NavState)
    (h0 : s.d_stat = 0)
    (hdet : (d_symbols_per_preamble : ℤ) ≤ |corrOf (s.d_symbol_history ++ [x])|) :
    (general_work s x nav).state.d_stat = 1 ∧
    (general_work s x nav).state.d_preamble_index = s.d_sample_counter + 1 ∧
    (general_work s x nav).state.d_preamble_time_samples =
      ((s.d_symbol_history ++ [x]).getD 0 default).Tracking_sample_counter ∧
    (general_work s x nav).state.d_sample_counter = s.d_sample_counter + 1 := by
  obtain ⟨hs, hi, -, -, hp, hc, -⟩ := step_projections s x nav
  rw [frame_sync_stat0_detect (pushed s x) _ nav h0 hdet] at hs hi hp
  exact ⟨hs, hi, hp, hc⟩

/-- In `PRESYNC`, a full-strength correlation exactly one preamble period after
the recorded index locks: state `LOCKED`, index updated to the counter. -/
theorem step_stat1_lock (s : DecoderState) (x : Gnss_Synchro) (nav : NavState)
    (h1 : s.d_stat = 1)
    (hdet : (d_symbols_per_preamble : ℤ) ≤ |corrOf (s.d_symbol_history ++ [x])|)
    (heq : s.d_sample_counter + 1 =
      s.d_preamble_index + BEIDOU_CNAV2_PREAMBLE_PERIOD_SYMBOLS) :
    (general_work s x nav).state.d_stat = 2 ∧
    (general_work s x nav).state.d_preamble_index = s.d_sample_counter + 1 ∧
    (general_work s x nav).state.d_sample_counter = s.d_sample_counter + 1 := by
  obtain ⟨hs, hi, -, -, -, hc, -⟩ := step_projections s x nav
  rw [frame_sync_stat1_lock (pushed s x) _ nav h1 hdet heq] at hs hi
  exact ⟨hs, hi, hc⟩

/-- In `PRESYNC`, a full-strength correlation strictly more than one preamble
period after the recorded index demotes to `NO_LOCK`. -/
theorem step_stat1_demote (s : DecoderState) (x : Gnss_Synchro) (nav : NavState)
    (h1 : s.d_stat = 1)
    (hdet : (d_symbols_per_preamble : ℤ) ≤ |corrOf (s.d_symbol_history ++ [x])|)
    (hgt : s.d_preamble_index + BEIDOU_CNAV2_PREAMBLE_PERIOD_SYMBOLS <
      s.d_sample_counter + 1) :
    (general_work s x nav).state.d_stat = 0 ∧
    (general_work s x nav).state.d_preamble_index = s.d_preamble_index := by
  obtain ⟨hs, hi, -, -, -, -, -⟩ := step_projections s x nav
  rw [frame_sync_stat1_big (pushed s x) _ nav h1 hdet hgt] at hs hi
  exact ⟨hs, hi⟩

/-- In `LOCKED` at the decode point with a failing CRC: the failure counter
increments, the preamble index advances to the current counter, and the state
demotes (clearing frame sync) exactly when the counter exceeds the limit. -/
theorem step_stat2_fail (s : DecoderState) (x : Gnss_Synchro) (nav : NavState)
    (h2 : s.d_stat = 2)
    (heq : s.d_sample_counter + 1 = s.d_preamble_index + BEIDOU_CNAV2_STRING_SYMBOLS)
    (hcrc : nav.flag_CRC_test = false) :
    (general_work s x nav).state.d_CRC_error_counter = s.d_CRC_error_counter + 1 ∧
    (general_work s x nav).state.d_preamble_index = s.d_sample_counter + 1 ∧
    (general_work s x nav).state.d_sample_counter = s.d_sample_counter + 1 ∧
    (CRC_ERROR_LIMIT < s.d_CRC_error_counter + 1 →
      (general_work s x nav).state.d_stat = 0 ∧
      (general_work s x nav).state.d_flag_frame_sync = false) ∧
    (s.d_CRC_error_counter + 1 ≤ CRC_ERROR_LIMIT →
      (general_work s x nav).state.d_stat = 2 ∧
      (general_work s x nav).state.d_flag_frame_sync = s.d_flag_frame_sync) := by
  obtain ⟨hs, hi, he, hf, -, hc, -⟩ := step_projections s x nav
  by_cases hlim : CRC_ERROR_LIMIT < s.d_CRC_error_counter + 1
  · rw [frame_sync_stat2_fail_demote (pushed s x) _ nav h2 heq hcrc hlim]
      at hs hi he hf
    exact ⟨he, hi, hc, fun _ => ⟨hs, hf⟩, fun h => absurd hlim (Nat.not_lt.mpr h)⟩
  · rw [frame_sync_stat2_fail_stay (pushed s x) _ nav h2 heq hcrc
        (Nat.not_lt.mp hlim)] at hs hi he hf
    exact ⟨he, hi, hc, fun h => absurd h hlim, fun _ => ⟨hs.trans h2, hf⟩⟩

/-- In `LOCKED` at the decode point with a passing CRC: the failure counter
resets to 0, the preamble flag is raised, the index advances, and frame sync
is asserted. -/
theorem step_stat2_pass (s : DecoderState) (x : Gnss_Synchro) (nav : NavState)
    (h2 : s.d_stat = 2)
    (heq : s.d_sample_counter + 1 = s.d_preamble_index + BEIDOU_CNAV2_STRING_SYMBOLS)
    (hcrc : nav.flag_CRC_test = true) :
    (general_work s x nav).state.d_stat = 2 ∧
    (general_work s x nav).state.d_CRC_error_counter = 0 ∧
    (general_work s x nav).state.d_preamble_index = s.d_sample_counter + 1 ∧
    (general_work s x nav).state.d_flag_frame_sync = true := by
  obtain ⟨hs, hi, he, hf, -, -, -⟩ := step_projections s x nav
  rw [frame_sync_stat2_pass (pushed s x) _ nav h2 heq hcrc] at hs hi he hf
  exact ⟨hs.trans h2, he, hi, hf⟩

/-! ### Run-level lemmas -/

/-- Steady-state history evolution: once the window is full (frame-length many
symbols), each invocation slides it by one, so after a run it consists of the
last frame-length many symbols of (old window ++ stream). -/
theorem run_hist (ys : List (Gnss_Synchro × NavState)) (s : DecoderState)
    (hlen : s.d_symbol_history.length = BEIDOU_CNAV2_STRING_SYMBOLS) :
    (run s ys).d_symbol_history =
      (s.d_symbol_history ++ ys.map Prod.fst).drop ys.length ∧
    (run s ys).d_symbol_history.length = BEIDOU_CNAV2_STRING_SYMBOLS := by
  induction ys generalizing s with
  | nil => exact ⟨by simp [run_nil], hlen⟩
  | cons p ys ih =>
    have hstep := (step_projections s p.1 p.2).2.2.2.2.2.2
    have hgt : BEIDOU_CNAV2_STRING_SYMBOLS < (s.d_symbol_history ++ [p.1]).length := by
      simp [hlen]
    rw [if_pos hgt] at hstep
    have hlen' : (general_work s p.1 p.2).state.d_symbol_history.length =
        BEIDOU_CNAV2_STRING_SYMBOLS := by
      rw [hstep, List.length_tail]
      simp [hlen]
    rw [run_cons]
    obtain ⟨ih1, ih2⟩ := ih _ hlen'
    refine ⟨?_, ih2⟩
    rw [ih1, hstep, ← List.drop_one,
        ← List.drop_append_of_le_length (by simp), List.drop_drop]
    simp [List.append_assoc]
    rw [Nat.add_comm]

/-- In `PRESYNC`, as long as strictly less than one preamble period elapses
since the recorded index, the machine stays in `PRESYNC` with the index
unchanged, whatever the stream contains. -/
theorem run_presync_hold (ys : List (Gnss_Synchro × NavState)) (s : DecoderState)
    (h1 : s.d_stat = 1)
    (hlt : s.d_sample_counter + ys.length <
      s.d_preamble_index + BEIDOU_CNAV2_PREAMBLE_PERIOD_SYMBOLS) :
    (run s ys).d_stat = 1 ∧
    (run s ys).d_preamble_index = s.d_preamble_index ∧
    (run s ys).d_sample_counter = s.d_sample_counter + ys.length := by
  induction ys generalizing s with
  | nil => exact ⟨h1, rfl, rfl⟩
  | cons p ys ih =>
    simp only [List.length_cons] at hlt
    obtain ⟨h1', hi', hc'⟩ := step_stat1_hold s p.1 p.2 h1 (by omega)
    rw [run_cons]
    obtain ⟨a, b, c⟩ := ih _ h1' (by rw [hi', hc']; omega)
    refine ⟨a, b.trans hi', ?_⟩
    rw [c, hc']
    simp [Nat.add_assoc, Nat.add_comm 1 ys.length]

/-- In `LOCKED`, as long as the counter stays strictly inside the frame period
after the recorded index, no synchronization field changes. -/
theorem run_locked_idle (ys : List (Gnss_Synchro × NavState)) (s : DecoderState)
    (h2 : s.d_stat = 2)
    (hlt : s.d_sample_counter + ys.length <
      s.d_preamble_index + BEIDOU_CNAV2_STRING_SYMBOLS) :
    (run s ys).d_stat = 2 ∧
    (run s ys).d_preamble_index = s.d_preamble_index ∧
    (run s ys).d_CRC_error_counter = s.d_CRC_error_counter ∧
    (run s ys).d_flag_frame_sync = s.d_flag_frame_sync ∧
    (run s ys).d_sample_counter = s.d_sample_counter + ys.length := by
  induction ys generalizing s with
  | nil => exact ⟨h2, rfl, rfl, rfl, rfl⟩
  | cons p ys ih =>
    simp only [List.length_cons] at hlt
    obtain ⟨h2', hi', he', hf', hc'⟩ := step_stat2_hold s p.1 p.2 h2 (by omega)
    rw [run_cons]
    obtain ⟨a, b, c, d, e⟩ := ih _ h2' (by rw [hi', hc']; omega)
    refine ⟨a, b.trans hi', c.trans he', d.trans hf', ?_⟩
    rw [e, hc']
    simp [Nat.add_assoc, Nat.add_comm 1 ys.length]

/-- One full frame period in `LOCKED` with a failing CRC at its decode point:
the failure counter increments by one, the preamble index advances one frame
period (staying equal to the counter), and the machine demotes (clearing frame
sync) exactly when the incremented counter exceeds the limit. -/
theorem run_locked_fail_round (ys : List (Gnss_Synchro × NavState)) (s : DecoderState)
    (h2 : s.d_stat = 2) (hidx : s.d_preamble_index = s.d_sample_counter)
    (hlen : ys.length = BEIDOU_CNAV2_STRING_SYMBOLS)
    (hfail : ∀ p ∈ ys, p.2.flag_CRC_test = false) :
    (run s ys).d_CRC_error_counter = s.d_CRC_error_counter + 1 ∧
    (run s ys).d_sample_counter = s.d_sample_counter + BEIDOU_CNAV2_STRING_SYMBOLS ∧
    (run s ys).d_preamble_index = (run s ys).d_sample_counter ∧
    (CRC_ERROR_LIMIT < s.d_CRC_error_counter + 1 →
      (run s ys).d_stat = 0 ∧ (run s ys).d_flag_frame_sync = false) ∧
    (s.d_CRC_error_counter + 1 ≤ CRC_ERROR_LIMIT →
      (run s ys).d_stat = 2 ∧ (run s ys).d_flag_frame_sync = s.d_flag_frame_sync) := by
  have hne : ys ≠ [] := by
    intro h
    rw [h] at hlen
    simp [BEIDOU_CNAV2_STRING_SYMBOLS] at hlen
  obtain ⟨ws, z, hys⟩ : ∃ ws z, ys = ws ++ [z] :=
    ⟨ys.dropLast, ys.getLast hne, (List.dropLast_append_getLast hne).symm⟩
  subst hys
  have hwlen : ws.length + 1 = BEIDOU_CNAV2_STRING_SYMBOLS := by
    simpa using hlen
  obtain ⟨a, b, c, d, e⟩ := run_locked_idle ws s h2 (by omega)
  have hz : z.2.flag_CRC_test = false := hfail z (by simp)
  have hdec : (run s ws).d_sample_counter + 1 =
      (run s ws).d_preamble_index + BEIDOU_CNAV2_STRING_SYMBOLS := by
    rw [e, b, hidx]; omega
  obtain ⟨f1, f2, f3, f4, f5⟩ := step_stat2_fail (run s ws) z.1 z.2 a hdec hz
  have hrun : run s (ws ++ [z]) = (general_work (run s ws) z.1 z.2).state := by
    rw [run_append, run_cons, run_nil]
  rw [hrun]
  refine ⟨by rw [f1, c], by rw [f3, e]; omega, by rw [f2, f3], ?_, ?_⟩
  · intro h
    exact f4 (by rw [c]; exact h)
  · intro h
    obtain ⟨g1, g2⟩ := f5 (by rw [c]; exact h)
    exact ⟨g1, g2.trans d⟩

/-- `n` consecutive frame periods in `LOCKED`, every decode failing its CRC:
the failure counter grows by one per frame; the machine survives exactly while
the counter stays within the limit, and demotes (clearing frame sync) on the
frame where the counter first exceeds it. -/
theorem run_locked_fail_rounds (n : ℕ) (ys : List (Gnss_Synchro × NavState))
    (s : DecoderState)
    (h2 : s.d_stat = 2) (hidx : s.d_preamble_index = s.d_sample_counter)
    (hsync : s.d_flag_frame_sync = true)
    (hn : s.d_CRC_error_counter + n ≤ CRC_ERROR_LIMIT + 1)
    (hlen : ys.length = BEIDOU_CNAV2_STRING_SYMBOLS * n)
    (hfail : ∀ p ∈ ys, p.2.flag_CRC_test = false) :
    (run s ys).d_CRC_error_counter = s.d_CRC_error_counter + n ∧
    (run s ys).d_sample_counter = s.d_sample_counter + BEIDOU_CNAV2_STRING_SYMBOLS * n ∧
    (run s ys).d_preamble_index = (run s ys).d_sample_counter ∧
    (s.d_CRC_error_counter + n ≤ CRC_ERROR_LIMIT →
      (run s ys).d_stat = 2 ∧ (run s ys).d_flag_frame_sync = true) ∧
    (1 ≤ n → s.d_CRC_error_counter + n = CRC_ERROR_LIMIT + 1 →
      (run s ys).d_stat = 0 ∧ (run s ys).d_flag_frame_sync = false) := by
  induction n generalizing s ys with
  | zero =>
    have : ys = [] := List.length_eq_zero.mp (by simpa using hlen)
    subst this
    exact ⟨by simp [run_nil], by simp [run_nil], by simp [run_nil, hidx],
           fun _ => ⟨h2, hsync⟩, fun h => absurd h (by omega)⟩
  | succ n ih =>
    have hsplit : ys = ys.take (BEIDOU_CNAV2_STRING_SYMBOLS * n) ++
        ys.drop (BEIDOU_CNAV2_STRING_SYMBOLS * n) := (List.take_append_drop _ _).symm
    have htk : (ys.take (BEIDOU_CNAV2_STRING_SYMBOLS * n)).length =
        BEIDOU_CNAV2_STRING_SYMBOLS * n := by
      rw [List.length_take, hlen]
      exact Nat.min_eq_left (by ring_nf; omega)
    have hdr : (ys.drop (BEIDOU_CNAV2_STRING_SYMBOLS * n)).length =
        BEIDOU_CNAV2_STRING_SYMBOLS := by
      rw [List.length_drop, hlen]
      ring_nf
      omega
    obtain ⟨a, b, c, d, -⟩ := ih (ys.take (BEIDOU_CNAV2_STRING_SYMBOLS * n)) s h2 hidx
      hsync (by omega) htk (fun p hp => hfail p (List.take_subset _ _ hp))
    obtain ⟨st2, hsy⟩ := d (by omega)
    obtain ⟨r1, r2, r3, r4, r5⟩ := run_locked_fail_round
      (ys.drop (BEIDOU_CNAV2_STRING_SYMBOLS * n)) _ st2 c hdr
      (fun p hp => hfail p (List.drop_subset _ _ hp))
    rw [hsplit, run_append]
    refine ⟨by rw [r1, a]; omega, by rw [r2, b]; ring, r3, ?_, ?_⟩
    · intro h
      obtain ⟨g1, g2⟩ := r5 (by rw [a]; omega)
      exact ⟨g1, g2.trans hsy⟩
    · intro _ h
      exact r4 (by rw [a]; omega)

/-! ### Reachability invariant -/

theorem frame_sync_other (s : DecoderState) (corr : ℤ) (nav : NavState)
    (h0 : s.d_stat ≠ 0) (h1 : s.d_stat ≠ 1) (h2 : s.d_stat ≠ 2) :
    frame_sync s corr nav = ⟨s, none⟩ := by
  simp [frame_sync, h0, h1, h2]

/-- A full-strength correlation can only be observed once the history holds
more than `required_symbols` entries (otherwise the score is pinned to 0). -/
theorem detect_hist_long (hist : List Gnss_Synchro)
    (hdet : (d_symbols_per_preamble : ℤ) ≤ |corrOf hist|) :
    BEIDOU_CNAV2_STRING_SYMBOLS < hist.length := by
  by_contra hn
  rw [corrOf, if_neg hn] at hdet
  simp [d_symbols_per_preamble, BEIDOU_CNAV2_PREAMBLE_LENGTH_SYMBOLS] at hdet

/-- The state invariant maintained by every invocation: the history length
tracks the sample counter up to the frame-length cap, and away from `NO_LOCK`
the recorded preamble index lies beyond the first full window and never ahead
of the counter. -/
def Inv (s : DecoderState) : Prop :=
  s.d_symbol_history.length = min s.d_sample_counter BEIDOU_CNAV2_STRING_SYMBOLS ∧
  (s.d_stat ≠ 0 →
    BEIDOU_CNAV2_STRING_SYMBOLS + 1 ≤ s.d_preamble_index ∧
    s.d_preamble_index ≤ s.d_sample_counter)

theorem Inv_step (s : DecoderState) (x : Gnss_Synchro) (nav : NavState)
    (h : Inv s) : Inv (general_work s x nav).state := by
  obtain ⟨hl, hi⟩ := h
  obtain ⟨ps, pi, -, -, -, pc, ph⟩ := step_projections s x nav
  constructor
  · rw [ph, pc]
    by_cases hgt : BEIDOU_CNAV2_STRING_SYMBOLS < (s.d_symbol_history ++ [x]).length
    · rw [if_pos hgt, List.length_tail]
      simp only [List.length_append, List.length_singleton] at hgt ⊢
      omega
    · rw [if_neg hgt]
      simp only [List.length_append, List.length_singleton] at hgt ⊢
      omega
  · by_cases h0 : s.d_stat = 0
    · by_cases hdet : (d_symbols_per_preamble : ℤ) ≤ |corrOf (s.d_symbol_history ++ [x])|
      · rw [frame_sync_stat0_detect (pushed s x) _ nav h0 hdet] at ps pi
        have hlong := detect_hist_long _ hdet
        simp only [List.length_append, List.length_singleton] at hlong
        have hx : (general_work s x nav).state.d_preamble_index =
            s.d_sample_counter + 1 := by rw [pi]; rfl
        intro _
        rw [hx, pc]
        omega
      · rw [frame_sync_stat0_idle (pushed s x) _ nav h0 hdet] at ps
        intro hne
        exact absurd (ps.trans h0) hne
    · by_cases h1 : s.d_stat = 1
      · by_cases hdet : (d_symbols_per_preamble : ℤ) ≤ |corrOf (s.d_symbol_history ++ [x])|
        · obtain ⟨ha, hb⟩ := hi (by omega)
          rcases Nat.lt_trichotomy (s.d_sample_counter + 1)
              (s.d_preamble_index + BEIDOU_CNAV2_PREAMBLE_PERIOD_SYMBOLS) with hcmp | hcmp | hcmp
          · rw [frame_sync_stat1_small (pushed s x) _ nav h1 hdet hcmp] at ps pi
            have hx : (general_work s x nav).state.d_preamble_index =
                s.d_preamble_index := by rw [pi]; rfl
            intro _
            rw [hx, pc]
            omega
          · rw [frame_sync_stat1_lock (pushed s x) _ nav h1 hdet hcmp] at ps pi
            have hx : (general_work s x nav).state.d_preamble_index =
                s.d_sample_counter + 1 := by rw [pi]; rfl
            intro _
            rw [hx, pc]
            omega
          · rw [frame_sync_stat1_big (pushed s x) _ nav h1 hdet hcmp] at ps
            intro hne
            exact absurd ps hne
        · rw [frame_sync_stat1_idle (pushed s x) _ nav h1 hdet] at ps pi
          obtain ⟨ha, hb⟩ := hi (by omega)
          have hx : (general_work s x nav).state.d_preamble_index =
              s.d_preamble_index := by rw [pi]; rfl
          intro _
          rw [hx, pc]
          omega
      · by_cases h2 : s.d_stat = 2
        · by_cases heq : s.d_sample_counter + 1 =
              s.d_preamble_index + BEIDOU_CNAV2_STRING_SYMBOLS
          · obtain ⟨ha, hb⟩ := hi (by omega)
            by_cases hcrc : nav.flag_CRC_test = true
            · rw [frame_sync_stat2_pass (pushed s x) _ nav h2 heq hcrc] at ps pi
              have hx : (general_work s x nav).state.d_preamble_index =
                  s.d_sample_counter + 1 := by rw [pi]; rfl
              intro _
              rw [hx, pc]
              omega
            · rw [Bool.not_eq_true] at hcrc
              by_cases hlim : CRC_ERROR_LIMIT < s.d_CRC_error_counter + 1
              · rw [frame_sync_stat2_fail_demote (pushed s x) _ nav h2 heq hcrc hlim]
                  at ps
                intro hne
                exact absurd ps hne
              · rw [frame_sync_stat2_fail_stay (pushed s x) _ nav h2 heq hcrc
                    (Nat.not_lt.mp hlim)] at ps pi
                have hx : (general_work s x nav).state.d_preamble_index =
                    s.d_sample_counter + 1 := by rw [pi]; rfl
                intro _
                rw [hx, pc]
                omega
          · rw [frame_sync_stat2_idle (pushed s x) _ nav h2 heq] at ps pi
            obtain ⟨ha, hb⟩ := hi (by omega)
            have hx : (general_work s x nav).state.d_preamble_index =
                s.d_preamble_index := by rw [pi]; rfl
            intro _
            rw [hx, pc]
            omega
        · rw [frame_sync_other (pushed s x) _ nav h0 h1 h2] at ps pi
          obtain ⟨ha, hb⟩ := hi h0
          have hx : (general_work s x nav).state.d_preamble_index =
              s.d_preamble_index := by rw [pi]; rfl
          intro _
          rw [hx, pc]
          omega

theorem Inv_run (s : DecoderState) (xs : List (Gnss_Synchro × NavState))
    (h : Inv s) : Inv (run s xs) := by
  induction xs generalizing s with
  | nil => exact h
  | cons p xs ih => exact ih _ (Inv_step s p.1 p.2 h)

theorem Inv_initState (prn : ℕ) : Inv (initState prn) :=
  ⟨rfl, fun hne => absurd rfl hne⟩

/-! ### Further projection lemmas -/

@[simp] theorem pushed_d_stat (s : DecoderState) (x : Gnss_Synchro) :
    (pushed s x).d_stat = s.d_stat := rfl

@[simp] theorem pushed_d_sample_counter (s : DecoderState) (x : Gnss_Synchro) :
    (pushed s x).d_sample_counter = s.d_sample_counter + 1 := rfl

@[simp] theorem pushed_d_preamble_index (s : DecoderState) (x : Gnss_Synchro) :
    (pushed s x).d_preamble_index = s.d_preamble_index := rfl

@[simp] theorem pushed_d_flag_preamble (s : DecoderState) (x : Gnss_Synchro) :
    (pushed s x).d_flag_preamble = false := rfl

@[simp] theorem pushed_d_nav (s : DecoderState) (x : Gnss_Synchro) :
    (pushed s x).d_nav = s.d_nav := rfl

@[simp] theorem pushed_d_TOW (s : DecoderState) (x : Gnss_Synchro) :
    (pushed s x).d_TOW_at_current_symbol = s.d_TOW_at_current_symbol := rfl

@[simp] theorem pushed_d_symbol_history (s : DecoderState) (x : Gnss_Synchro) :
    (pushed s x).d_symbol_history = s.d_symbol_history ++ [x] := rfl

@[simp] theorem pushed_d_CRC (s : DecoderState) (x : Gnss_Synchro) :
    (pushed s x).d_CRC_error_counter = s.d_CRC_error_counter := rfl

@[simp] theorem pushed_d_flag_frame_sync (s : DecoderState) (x : Gnss_Synchro) :
    (pushed s x).d_flag_frame_sync = s.d_flag_frame_sync := rfl

theorem evict_d_TOW (s : DecoderState) :
    (evict s).d_TOW_at_current_symbol = s.d_TOW_at_current_symbol := by
  unfold evict; split <;> rfl

theorem evict_d_nav (s : DecoderState) : (evict s).d_nav = s.d_nav := by
  unfold evict; split <;> rfl

theorem frame_sync_d_TOW (s : DecoderState) (corr : ℤ) (nav : NavState) :
    (frame_sync s corr nav).st.d_TOW_at_current_symbol = s.d_TOW_at_current_symbol := by
  unfold frame_sync
  dsimp only
  repeat' split
  all_goals rfl

/-- The valid-preamble flag raised by the frame-sync stage: starting from a
cleared flag, it is raised exactly by a decode attempt whose CRC passes. -/
theorem frame_sync_d_flag_preamble (s : DecoderState) (corr : ℤ) (nav : NavState)
    (hfp : s.d_flag_preamble = false) :
    (frame_sync s corr nav).st.d_flag_preamble =
      (decide (s.d_stat = 2) &&
       decide (s.d_sample_counter = s.d_preamble_index + BEIDOU_CNAV2_STRING_SYMBOLS) &&
       nav.flag_CRC_test) := by
  unfold frame_sync
  dsimp only
  repeat' split
  all_goals simp_all

/-- The fresh time-of-week flag of the collaborator after the frame-sync stage:
replaced by the decoder oracle's on a decode attempt, untouched otherwise. -/
theorem frame_sync_d_nav_flag_TOW_new (s : DecoderState) (corr : ℤ) (nav : NavState) :
    (frame_sync s corr nav).st.d_nav.flag_TOW_new =
      (if s.d_stat = 2 ∧
          s.d_sample_counter = s.d_preamble_index + BEIDOU_CNAV2_STRING_SYMBOLS then
        nav.flag_TOW_new
       else s.d_nav.flag_TOW_new) := by
  unfold frame_sync
  dsimp only
  repeat' split
  all_goals simp_all

/-- The seconds-of-week payload after the frame-sync stage. -/
theorem frame_sync_d_nav_SOW (s : DecoderState) (corr : ℤ) (nav : NavState) :
    (frame_sync s corr nav).st.d_nav.SOW =
      (if s.d_stat = 2 ∧
          s.d_sample_counter = s.d_preamble_index + BEIDOU_CNAV2_STRING_SYMBOLS then
        nav.SOW
       else s.d_nav.SOW) := by
  unfold frame_sync
  dsimp only
  repeat' split
  all_goals simp_all

/-- The failure counter after the frame-sync stage: reset on a passing decode,
incremented on a failing one, untouched otherwise. -/
theorem frame_sync_d_CRC (s : DecoderState) (corr : ℤ) (nav : NavState) :
    (frame_sync s corr nav).st.d_CRC_error_counter =
      (if s.d_stat = 2 ∧
          s.d_sample_counter = s.d_preamble_index + BEIDOU_CNAV2_STRING_SYMBOLS then
        (if nav.flag_CRC_test then 0 else s.d_CRC_error_counter + 1)
       else s.d_CRC_error_counter) := by
  unfold frame_sync
  dsimp only
  repeat' split
  all_goals simp_all

/-- On a decode attempt, the bit string handed to the collaborator's string
decoder is exactly the symbol-to-bit conversion of the extracted data symbols,
whatever the CRC outcome. -/
theorem frame_sync_handed_decode (s : DecoderState) (corr : ℤ) (nav : NavState)
    (h2 : s.d_stat = 2)
    (heq : s.d_sample_counter = s.d_preamble_index + BEIDOU_CNAV2_STRING_SYMBOLS) :
    (frame_sync s corr nav).handed =
      some (decode_string_data_bits (extract_string_symbols s.d_symbol_history corr)) := by
  unfold frame_sync
  dsimp only
  repeat' split
  all_goals simp_all

/-- Fresh-time re-anchoring: when a decode with passing CRC happens on this
symbol and the oracle reports a fresh time-of-week, the tag is recomputed from
the reported seconds-of-week and the fresh flag is cleared. -/
theorem step_tow_fresh (s : DecoderState) (x : Gnss_Synchro) (nav : NavState)
    (h2 : s.d_stat = 2)
    (heq : s.d_sample_counter + 1 = s.d_preamble_index + BEIDOU_CNAV2_STRING_SYMBOLS)
    (hcrc : nav.flag_CRC_test = true) (htow : nav.flag_TOW_new = true) :
    (general_work s x nav).state.d_TOW_at_current_symbol =
      (⌊(nav.SOW - BEIDOU_CNAV2_PREAMBLE_DURATION_S) * 1000⌋ : ℚ) / 1000 ∧
    (general_work s x nav).state.d_nav.flag_TOW_new = false := by
  rw [general_work_state, evict_d_TOW, evict_d_nav]
  have hfp : (frame_sync (pushed s x) (corrOf (s.d_symbol_history ++ [x])) nav).st.d_flag_preamble
      = true := by
    rw [frame_sync_d_flag_preamble _ _ _ (pushed_d_flag_preamble s x)]
    simp [h2, heq, hcrc]
  have htn : (frame_sync (pushed s x) (corrOf (s.d_symbol_history ++ [x])) nav).st.d_nav.flag_TOW_new
      = true := by
    rw [frame_sync_d_nav_flag_TOW_new]
    simp [h2, heq, htow]
  have hsow : (frame_sync (pushed s x) (corrOf (s.d_symbol_history ++ [x])) nav).st.d_nav.SOW
      = nav.SOW := by
    rw [frame_sync_d_nav_SOW]
    simp [h2, heq]
  unfold tow_update
  rw [hfp, htn, hsow]
  simp

/-- Absent a fresh-time event on this symbol (no decode, failed CRC, or no
fresh flag), the tag advances by exactly one code period. -/
theorem step_tow_advance (s : DecoderState) (x : Gnss_Synchro) (nav : NavState)
    (hnc : ¬(s.d_stat = 2 ∧
        s.d_sample_counter + 1 = s.d_preamble_index + BEIDOU_CNAV2_STRING_SYMBOLS ∧
        nav.flag_CRC_test = true ∧ nav.flag_TOW_new = true)) :
    (general_work s x nav).state.d_TOW_at_current_symbol =
      s.d_TOW_at_current_symbol + BEIDOU_B2a_CODE_PERIOD := by
  rw [general_work_state, evict_d_TOW]
  have hcond : ((frame_sync (pushed s x) (corrOf (s.d_symbol_history ++ [x])) nav).st.d_flag_preamble
      && (frame_sync (pushed s x) (corrOf (s.d_symbol_history ++ [x])) nav).st.d_nav.flag_TOW_new)
      = false := by
    rw [frame_sync_d_flag_preamble _ _ _ (pushed_d_flag_preamble s x),
        frame_sync_d_nav_flag_TOW_new]
    simp only [pushed_d_stat, pushed_d_sample_counter, pushed_d_preamble_index,
      pushed_d_nav]
    by_cases h2 : s.d_stat = 2
    · by_cases heq : s.d_sample_counter + 1 = s.d_preamble_index + BEIDOU_CNAV2_STRING_SYMBOLS
      · cases hcrc : nav.flag_CRC_test <;> cases htow : nav.flag_TOW_new <;>
          simp_all
      · simp [h2, heq]
    · simp [h2]
  unfold tow_update
  rw [hcond]
  rw [if_neg (by simp)]
  rw [frame_sync_d_TOW]
  rfl

/-! ## Claim theorems -/

/-- C5: on every invocation, in every sync state, the time-of-week tag is
updated by exactly one of two rules: if a frame was decoded on this symbol
(passing CRC) and the collaborator's fresh time-of-week flag is set, the tag
becomes `⌊(SOW − preamble duration) · 1000⌋ / 1000` and the fresh flag is
cleared; otherwise the previous tag advances by exactly one code period. -/
theorem C5_tow_two_rules (s : DecoderState) (x : Gnss_Synchro) (nav : NavState) :
    ((s.d_stat = 2 ∧
      s.d_sample_counter + 1 = s.d_preamble_index + BEIDOU_CNAV2_STRING_SYMBOLS ∧
      nav.flag_CRC_test = true ∧ nav.flag_TOW_new = true) →
      (general_work s x nav).state.d_TOW_at_current_symbol =
        (⌊(nav.SOW - BEIDOU_CNAV2_PREAMBLE_DURATION_S) * 1000⌋ : ℚ) / 1000 ∧
      (general_work s x nav).state.d_nav.flag_TOW_new = false) ∧
    (¬(s.d_stat = 2 ∧
       s.d_sample_counter + 1 = s.d_preamble_index + BEIDOU_CNAV2_STRING_SYMBOLS ∧
       nav.flag_CRC_test = true ∧ nav.flag_TOW_new = true) →
      (general_work s x nav).state.d_TOW_at_current_symbol =
        s.d_TOW_at_current_symbol + BEIDOU_B2a_CODE_PERIOD) := by
  constructor
  · rintro ⟨h2, heq, hcrc, htow⟩
    exact step_tow_fresh s x nav h2 heq hcrc htow
  · intro hnc
    exact step_tow_advance s x nav hnc

/-- C7: every invocation consumes exactly one input symbol and produces exactly
one output symbol — a copy of the input (same amplitude and tracking
timestamp) carrying the annotation fields — in every state, whatever the
correlation, CRC or decode outcome. -/
theorem C7_one_in_one_out (s : DecoderState) (x : Gnss_Synchro) (nav : NavState) :
    (general_work s x nav).consumed = 1 ∧
    (general_work s x nav).produced = 1 ∧
    (general_work s x nav).out.Prompt_I = x.Prompt_I ∧
    (general_work s x nav).out.Tracking_sample_counter = x.Tracking_sample_counter :=
  ⟨rfl, rfl, rfl, rfl⟩

/-- C8: each invocation appends the new symbol to the history and, once the
size exceeds the frame-length bound `required_symbols`, evicts exactly the
oldest symbol before returning; consequently every state reachable from the
initial one keeps the history within the bound. -/
theorem C8_history_bound (s : DecoderState) (x : Gnss_Synchro) (nav : NavState)
    (prn : ℕ) (xs : List (Gnss_Synchro × NavState)) :
    (general_work s x nav).state.d_symbol_history =
      (if BEIDOU_CNAV2_STRING_SYMBOLS < (s.d_symbol_history ++ [x]).length then
        (s.d_symbol_history ++ [x]).tail
       else s.d_symbol_history ++ [x]) ∧
    (run (initState prn) xs).d_symbol_history.length ≤ BEIDOU_CNAV2_STRING_SYMBOLS := by
  refine ⟨(step_projections s x nav).2.2.2.2.2.2, ?_⟩
  have h := (Inv_run (initState prn) xs (Inv_initState prn)).1
  rw [h]
  exact Nat.min_le_right _ _

/-- C6: in `PRESYNC`, when a full-strength correlation recurs: if the elapsed
distance exceeds one preamble period the machine falls back to `NO_LOCK` (and
in particular not to `LOCKED`); if it is smaller than one period the machine
stays in `PRESYNC` with the preamble index unchanged. -/
theorem C6_presync_drift (s : DecoderState) (x : Gnss_Synchro) (nav : NavState)
    (h1 : s.d_stat = 1)
    (hdet : (d_symbols_per_preamble : ℤ) ≤ |corrOf (s.d_symbol_history ++ [x])|) :
    (s.d_preamble_index + BEIDOU_CNAV2_PREAMBLE_PERIOD_SYMBOLS < s.d_sample_counter + 1 →
      (general_work s x nav).state.d_stat = 0 ∧
      (general_work s x nav).state.d_stat ≠ 2) ∧
    (s.d_sample_counter + 1 < s.d_preamble_index + BEIDOU_CNAV2_PREAMBLE_PERIOD_SYMBOLS →
      (general_work s x nav).state.d_stat = 1 ∧
      (general_work s x nav).state.d_preamble_index = s.d_preamble_index) := by
  constructor
  · intro hgt
    obtain ⟨a, -⟩ := step_stat1_demote s x nav h1 hdet hgt
    exact ⟨a, by rw [a]; omega⟩
  · intro hlt
    obtain ⟨a, b, -⟩ := step_stat1_hold s x nav h1 hlt
    exact ⟨a, b⟩

/-- C9: whenever a frame decode is attempted in a reachable state (`LOCKED`
with the counter exactly one frame past the preamble index), every history
index read by the data-symbol extraction lies inside the window, and the
decoder's length precondition `frame_length ≥ 24 + 288` holds. -/
theorem C9_decode_in_bounds :
    (∀ (prn : ℕ) (xs : List (Gnss_Synchro × NavState)),
      Inv (run (initState prn) xs)) ∧
    (∀ (s : DecoderState) (x : Gnss_Synchro),
      Inv s → s.d_stat = 2 →
      s.d_sample_counter + 1 = s.d_preamble_index + BEIDOU_CNAV2_STRING_SYMBOLS →
      (∀ i < BEIDOU_CNAV2_STRING_SYMBOLS - d_symbols_per_preamble,
        i + d_symbols_per_preamble < (s.d_symbol_history ++ [x]).length) ∧
      24 + 288 ≤ BEIDOU_CNAV2_STRING_SYMBOLS - d_symbols_per_preamble) := by
  constructor
  · intro prn xs
    exact Inv_run _ xs (Inv_initState prn)
  · intro s x hInv h2 heq
    obtain ⟨hl, hi⟩ := hInv
    obtain ⟨ha, hb⟩ := hi (by omega)
    constructor
    · intro i hilt
      simp only [List.length_append, List.length_singleton]
      simp only [BEIDOU_CNAV2_STRING_SYMBOLS, d_symbols_per_preamble,
        BEIDOU_CNAV2_PREAMBLE_LENGTH_SYMBOLS] at *
      omega
    · simp only [BEIDOU_CNAV2_STRING_SYMBOLS, d_symbols_per_preamble,
        BEIDOU_CNAV2_PREAMBLE_LENGTH_SYMBOLS]
      omega

/-- C10: the consecutive-CRC-failure counter resets to 0 only through a decode
whose CRC passes; the over-limit demotion leaves it at its incremented value;
consequently, in a later lock session with the counter still above the limit,
the very first CRC failure demotes to `NO_LOCK` immediately. -/
theorem C10_crc_counter_persistence :
    (∀ (s : DecoderState) (x : Gnss_Synchro) (nav : NavState),
      (general_work s x nav).state.d_CRC_error_counter = 0 →
      s.d_CRC_error_counter = 0 ∨
      (s.d_stat = 2 ∧
       s.d_sample_counter + 1 = s.d_preamble_index + BEIDOU_CNAV2_STRING_SYMBOLS ∧
       nav.flag_CRC_test = true)) ∧
    (∀ (s : DecoderState) (x : Gnss_Synchro) (nav : NavState),
      s.d_stat = 2 →
      s.d_sample_counter + 1 = s.d_preamble_index + BEIDOU_CNAV2_STRING_SYMBOLS →
      nav.flag_CRC_test = false →
      CRC_ERROR_LIMIT < s.d_CRC_error_counter + 1 →
      (general_work s x nav).state.d_stat = 0 ∧
      (general_work s x nav).state.d_flag_frame_sync = false ∧
      (general_work s x nav).state.d_CRC_error_counter = s.d_CRC_error_counter + 1) ∧
    (∀ (s : DecoderState) (x : Gnss_Synchro) (nav : NavState),
      s.d_stat = 2 →
      s.d_sample_counter + 1 = s.d_preamble_index + BEIDOU_CNAV2_STRING_SYMBOLS →
      nav.flag_CRC_test = false →
      CRC_ERROR_LIMIT < s.d_CRC_error_counter →
      (general_work s x nav).state.d_stat = 0 ∧
      (general_work s x nav).state.d_flag_frame_sync = false) := by
  refine ⟨?_, ?_, ?_⟩
  · intro s x nav h
    have hp := (step_projections s x nav).2.2.1
    rw [frame_sync_d_CRC] at hp
    simp only [pushed_d_stat, pushed_d_sample_counter, pushed_d_preamble_index,
      pushed_d_CRC] at hp
    by_cases h2 : s.d_stat = 2
    · by_cases heq : s.d_sample_counter + 1 = s.d_preamble_index + BEIDOU_CNAV2_STRING_SYMBOLS
      · rw [if_pos ⟨h2, heq⟩] at hp
        by_cases hcrc : nav.flag_CRC_test = true
        · exact Or.inr ⟨h2, heq, hcrc⟩
        · rw [Bool.not_eq_true] at hcrc
          rw [hcrc] at hp
          simp at hp
          rw [h] at hp
          omega
      · rw [if_neg (by tauto)] at hp
        exact Or.inl (hp.symm.trans h)
    · rw [if_neg (by tauto)] at hp
      exact Or.inl (hp.symm.trans h)
  · intro s x nav h2 heq hcrc hlim
    obtain ⟨a, -, -, d, -⟩ := step_stat2_fail s x nav h2 heq hcrc
    obtain ⟨e, f⟩ := d hlim
    exact ⟨e, f, a⟩
  · intro s x nav h2 heq hcrc hlim
    obtain ⟨-, -, -, d, -⟩ := step_stat2_fail s x nav h2 heq hcrc
    exact d (by omega)

/-- C2: while `LOCKED`, each decode with failing CRC increments the failure
counter and advances the preamble index by one frame period; starting from a
counter of 0 with frame sync asserted, 8 consecutive failing frames leave the
machine `LOCKED` with frame sync still asserted and the counter at 8, while the
9th consecutive failure resets the state to `NO_LOCK` and clears frame sync. -/
theorem C2_crc_failure_accumulation :
    (∀ (s : DecoderState) (x : Gnss_Synchro) (nav : NavState),
      s.d_stat = 2 →
      s.d_sample_counter + 1 = s.d_preamble_index + BEIDOU_CNAV2_STRING_SYMBOLS →
      nav.flag_CRC_test = false →
      (general_work s x nav).state.d_CRC_error_counter = s.d_CRC_error_counter + 1 ∧
      (general_work s x nav).state.d_preamble_index =
        s.d_preamble_index + BEIDOU_CNAV2_STRING_SYMBOLS ∧
      (CRC_ERROR_LIMIT < s.d_CRC_error_counter + 1 →
        (general_work s x nav).state.d_stat = 0 ∧
        (general_work s x nav).state.d_flag_frame_sync = false) ∧
      (s.d_CRC_error_counter + 1 ≤ CRC_ERROR_LIMIT →
        (general_work s x nav).state.d_stat = 2 ∧
        (general_work s x nav).state.d_flag_frame_sync = s.d_flag_frame_sync)) ∧
    (∀ (s : DecoderState) (ys : List (Gnss_Synchro × NavState)),
      s.d_stat = 2 → s.d_CRC_error_counter = 0 → s.d_flag_frame_sync = true →
      s.d_preamble_index = s.d_sample_counter →
      (∀ p ∈ ys, p.2.flag_CRC_test = false) →
      (ys.length = BEIDOU_CNAV2_STRING_SYMBOLS * 8 →
        (run s ys).d_stat = 2 ∧ (run s ys).d_flag_frame_sync = true ∧
        (run s ys).d_CRC_error_counter = 8) ∧
      (ys.length = BEIDOU_CNAV2_STRING_SYMBOLS * 9 →
        (run s ys).d_stat = 0 ∧ (run s ys).d_flag_frame_sync = false)) := by
  constructor
  · intro s x nav h2 heq hcrc
    obtain ⟨a, b, -, d, e⟩ := step_stat2_fail s x nav h2 heq hcrc
    exact ⟨a, by rw [b, heq], d, e⟩
  · intro s ys h2 hcrc0 hsync hidx hfail
    constructor
    · intro hlen
      obtain ⟨a, -, -, d, -⟩ := run_locked_fail_rounds 8 ys s h2 hidx hsync
        (by simp only [CRC_ERROR_LIMIT]; omega) hlen hfail
      obtain ⟨e, f⟩ := d (by simp only [CRC_ERROR_LIMIT]; omega)
      exact ⟨e, f, by rw [a, hcrc0]⟩
    · intro hlen
      obtain ⟨-, -, -, -, e⟩ := run_locked_fail_rounds 9 ys s h2 hidx hsync
        (by simp only [CRC_ERROR_LIMIT]; omega) hlen hfail
      exact e (by omega) (by simp only [CRC_ERROR_LIMIT]; omega)

/-- C1: from `NO_LOCK` with a full window, a full-strength correlation on the
next symbol moves the machine to `PRESYNC`, recording the new counter value as
the preamble index and the oldest window symbol's tracking timestamp as the
time anchor; it stays in `PRESYNC` (index unchanged) for the whole following
frame period, and a full-strength correlation exactly one frame period later
moves it to `LOCKED` with the index updated — no intermediate demotion. -/
theorem C1_acquisition_sequence (s : DecoderState) (y0 z : Gnss_Synchro × NavState)
    (ys1 : List (Gnss_Synchro × NavState))
    (h0 : s.d_stat = 0)
    (hlen : s.d_symbol_history.length = BEIDOU_CNAV2_STRING_SYMBOLS)
    (hlen1 : ys1.length + 1 = BEIDOU_CNAV2_PREAMBLE_PERIOD_SYMBOLS)
    (hdet1 : (d_symbols_per_preamble : ℤ) ≤ |corrOf (s.d_symbol_history ++ [y0.1])|)
    (hdet2 : (d_symbols_per_preamble : ℤ) ≤
      |corrOf ((y0 :: ys1).map Prod.fst ++ [z.1])|) :
    ((run s [y0]).d_stat = 1 ∧
     (run s [y0]).d_preamble_index = s.d_sample_counter + 1 ∧
     (run s [y0]).d_preamble_time_samples =
       ((s.d_symbol_history ++ [y0.1]).getD 0 default).Tracking_sample_counter) ∧
    (∀ j, 1 ≤ j → j ≤ BEIDOU_CNAV2_PREAMBLE_PERIOD_SYMBOLS →
      (run s ((y0 :: ys1).take j)).d_stat = 1 ∧
      (run s ((y0 :: ys1).take j)).d_preamble_index = s.d_sample_counter + 1) ∧
    (run s (y0 :: (ys1 ++ [z]))).d_stat = 2 ∧
    (run s (y0 :: (ys1 ++ [z]))).d_preamble_index =
      s.d_sample_counter + 1 + BEIDOU_CNAV2_PREAMBLE_PERIOD_SYMBOLS := by
  obtain ⟨a1, b1, c1, d1⟩ := step_stat0_detect s y0.1 y0.2 h0 hdet1
  have hr1 : run s [y0] = (general_work s y0.1 y0.2).state := rfl
  have hper : BEIDOU_CNAV2_PREAMBLE_PERIOD_SYMBOLS = 600 := rfl
  have hys1 : ys1.length = 599 := by omega
  refine ⟨⟨by rw [hr1]; exact a1, by rw [hr1]; exact b1, by rw [hr1]; exact c1⟩,
    ?_, ?_⟩
  · intro j hj1 hj2
    obtain ⟨k, rfl⟩ : ∃ k, j = k + 1 := ⟨j - 1, by omega⟩
    rw [List.take_succ_cons, run_cons]
    have hbound : (general_work s y0.1 y0.2).state.d_sample_counter +
        (ys1.take k).length <
        (general_work s y0.1 y0.2).state.d_preamble_index +
        BEIDOU_CNAV2_PREAMBLE_PERIOD_SYMBOLS := by
      rw [b1, d1, List.length_take]
      omega
    obtain ⟨p1, p2, -⟩ := run_presync_hold (ys1.take k) _ a1 hbound
    exact ⟨p1, by rw [p2, b1]⟩
  · have hcons : run s (y0 :: (ys1 ++ [z])) = run (run s (y0 :: ys1)) [z] := by
      rw [← List.cons_append, run_append]
    have hS : run s (y0 :: ys1) = run (general_work s y0.1 y0.2).state ys1 := rfl
    have hbound : (general_work s y0.1 y0.2).state.d_sample_counter + ys1.length <
        (general_work s y0.1 y0.2).state.d_preamble_index +
        BEIDOU_CNAV2_PREAMBLE_PERIOD_SYMBOLS := by
      rw [b1, d1]
      omega
    obtain ⟨p1, p2, p3⟩ := run_presync_hold ys1 _ a1 hbound
    rw [← hS] at p1 p2 p3
    obtain ⟨hh, -⟩ := run_hist (y0 :: ys1) s hlen
    have hh2 : (run s (y0 :: ys1)).d_symbol_history = (y0 :: ys1).map Prod.fst := by
      rw [hh]
      have hll : (y0 :: ys1).length = s.d_symbol_history.length := by
        rw [hlen]
        simp [hys1, BEIDOU_CNAV2_STRING_SYMBOLS]
      rw [hll, List.drop_left]
    have heqz : (run s (y0 :: ys1)).d_sample_counter + 1 =
        (run s (y0 :: ys1)).d_preamble_index +
        BEIDOU_CNAV2_PREAMBLE_PERIOD_SYMBOLS := by
      rw [p3, p2, b1, d1]
      omega
    have hdetz : (d_symbols_per_preamble : ℤ) ≤
        |corrOf ((run s (y0 :: ys1)).d_symbol_history ++ [z.1])| := by
      rw [hh2]
      exact hdet2
    obtain ⟨q1, q2, -⟩ := step_stat1_lock (run s (y0 :: ys1)) z.1 z.2 p1 hdetz heqz
    have hfin : run (run s (y0 :: ys1)) [z] =
        (general_work (run s (y0 :: ys1)) z.1 z.2).state := rfl
    rw [hcons, hfin]
    refine ⟨q1, ?_⟩
    rw [q2, p3, d1, b1, d1] at *
    omega

/-- C3 counterexample: the conversion does NOT turn every symbol of the array
into a bit — on an all-positive array of `BEIDOU_CNAV2_DATA_SYMBOLS` symbols
(as handed over by `general_work`), the produced bit string differs from the
one-bit-per-symbol reading (288 bits versus 576). -/
theorem C3_counterexample :
    decode_string_data_bits (List.replicate BEIDOU_CNAV2_DATA_SYMBOLS (1 : ℚ)) ≠
      decode_string_data_bits_spec (List.replicate BEIDOU_CNAV2_DATA_SYMBOLS (1 : ℚ)) := by
  intro h
  have hlen := congrArg List.length h
  simp only [decode_string_data_bits, decode_string_data_bits_spec,
    List.length_map, List.length_range, List.length_replicate,
    BEIDOU_CNAV2_DATA_SYMBOLS] at hlen
  omega

/-- C3 (amended): the conversion turns exactly the symbols at indices
24 … 311 of the frame-symbol array into bits — strictly positive amplitude
↦ `1`, non-positive ↦ `0` — concatenated in order; and on a decode attempt
that bit string (applied to the extracted, polarity-resolved data symbols) is
what is handed to the collaborator's string-decoder entry point. -/
theorem C3_symbol_to_bit (frame_symbols : List ℚ)
    (hlen : 24 + 288 ≤ frame_symbols.length) :
    decode_string_data_bits frame_symbols =
      ((frame_symbols.drop 24).take 288).map
        (fun a => if 0 < a then true else false) ∧
    (∀ (s : DecoderState) (x : Gnss_Synchro) (nav : NavState),
      s.d_stat = 2 →
      s.d_sample_counter + 1 = s.d_preamble_index + BEIDOU_CNAV2_STRING_SYMBOLS →
      (general_work s x nav).handed =
        some (decode_string_data_bits
          (extract_string_symbols (s.d_symbol_history ++ [x])
            (corrOf (s.d_symbol_history ++ [x]))))) := by
  constructor
  · apply List.ext_getElem
    · simp [decode_string_data_bits]
      omega
    · intro i h1 h2
      simp only [decode_string_data_bits, List.length_map, List.length_range] at h1
      simp only [decode_string_data_bits, List.getElem_map, List.getElem_range]
      rw [List.getElem_take, List.getElem_drop,
          List.getD_eq_getElem frame_symbols 0 (by omega)]
  · intro s x nav h2 heq
    rw [general_work_handed, frame_sync_handed_decode (pushed s x) _ nav h2 heq]
    rfl

/-- Pointwise-negated summands negate a list sum. -/
theorem sum_map_neg (l : List ℕ) (f : ℕ → ℤ) :
    (l.map (fun i => -(f i))).sum = -((l.map f).sum) := by
  induction l with
  | nil => simp
  | cons a l ih => simp [ih]; ring

set_option maxRecDepth 20000 in
/-- C4 counterexample: two over-full windows that are exact negations of each
other (every amplitude negated, all other fields equal) on which the
correlator yields different `|score|` — the window contains a symbol of
amplitude exactly 0, which the two-branch accumulation sends to the `add`
branch in both polarities. -/
theorem C4_counterexample :
    |corrOf (zeroFirstHist.map negSym)| ≠ |corrOf zeroFirstHist| := by decide

/-- C4 (amended): for every window containing no amplitude that is exactly
zero, negating every amplitude negates the correlation score, so `|score|`
agrees at every step between a stream and its exact negation. -/
theorem C4_polarity_invariance (hist : List Gnss_Synchro)
    (hnz : ∀ g ∈ hist, g.Prompt_I ≠ 0) :
    corrOf (hist.map negSym) = -(corrOf hist) ∧
    |corrOf (hist.map negSym)| = |corrOf hist| := by
  have hmain : corrOf (hist.map negSym) = -(corrOf hist) := by
    unfold corrOf
    rw [List.length_map]
    split
    case isTrue h =>
      unfold preamble_corr
      rw [← sum_map_neg]
      apply congrArg List.sum
      apply List.map_congr_left
      intro i hi
      have hi24 : i < d_symbols_per_preamble := List.mem_range.mp hi
      have hilt : i < hist.length := by
        simp only [d_symbols_per_preamble, BEIDOU_CNAV2_PREAMBLE_LENGTH_SYMBOLS] at hi24
        simp only [BEIDOU_CNAV2_STRING_SYMBOLS] at h
        omega
      have hilt2 : i < (hist.map negSym).length := by
        rw [List.length_map]
        exact hilt
      rw [List.getD_eq_getElem _ _ hilt2, List.getD_eq_getElem _ _ hilt,
          List.getElem_map]
      have hne : hist[i].Prompt_I ≠ 0 := hnz _ (List.getElem_mem hilt)
      have hamp : (negSym hist[i]).Prompt_I = -(hist[i].Prompt_I) := rfl
      rcases lt_or_gt_of_ne hne with hlt | hgt
      · rw [if_pos hlt, hamp,
            if_neg (show ¬(-(hist[i].Prompt_I) < 0) by linarith)]
        exact (neg_neg _).symm
      · rw [hamp, if_pos (show -(hist[i].Prompt_I) < 0 by linarith),
            if_neg (show ¬(hist[i].Prompt_I < 0) by linarith)]
    case isFalse h => simp
  exact ⟨hmain, by rw [hmain, abs_neg]⟩

/-! ## Witnesses -/

/-- Witness for C5: a concrete decode-point state with a passing CRC and fresh
time-of-week re-anchors the tag; a concrete `NO_LOCK` state advances it. -/
theorem C5_witness :
    ((general_work (mkState 1199 600 2 0 true []) oneSym navPass).state.d_TOW_at_current_symbol =
      (⌊(navPass.SOW - BEIDOU_CNAV2_PREAMBLE_DURATION_S) * 1000⌋ : ℚ) / 1000 ∧
     (general_work (mkState 1199 600 2 0 true []) oneSym navPass).state.d_nav.flag_TOW_new
       = false) ∧
    (general_work (mkState 5 0 0 0 false []) oneSym navPass).state.d_TOW_at_current_symbol =
      (mkState 5 0 0 0 false []).d_TOW_at_current_symbol + BEIDOU_B2a_CODE_PERIOD :=
  ⟨(C5_tow_two_rules (mkState 1199 600 2 0 true []) oneSym navPass).1
      ⟨rfl, by decide, rfl, rfl⟩,
   (C5_tow_two_rules (mkState 5 0 0 0 false []) oneSym navPass).2 (by decide)⟩

/-- Witness for C6: with a full-strength correlation over a concrete window,
a one-period-late state demotes to `NO_LOCK`, an early one stays in `PRESYNC`
with the index unchanged. -/
theorem C6_witness :
    ((d_symbols_per_preamble : ℤ) ≤ |corrOf (fullHist ++ [oneSym])| ∧
     (general_work (mkState 1300 601 1 0 true fullHist) oneSym default).state.d_stat = 0) ∧
    ((general_work (mkState 650 601 1 0 true fullHist) oneSym default).state.d_stat = 1 ∧
     (general_work (mkState 650 601 1 0 true fullHist) oneSym default).state.d_preamble_index
       = 601) :=
  ⟨⟨by decide,
    ((C6_presync_drift (mkState 1300 601 1 0 true fullHist) oneSym default rfl
      (by decide)).1 (by decide)).1⟩,
   (C6_presync_drift (mkState 650 601 1 0 true fullHist) oneSym default rfl
      (by decide)).2 (by decide)⟩

/-- Witness for C10: a concrete invocation leaving the counter at 0 without a
decode; a concrete over-limit failure demoting with the counter at 9; a
concrete re-locked state with stale counter 9 demoting on its first failure. -/
theorem C10_witness :
    ((general_work (mkState 5 0 0 0 false []) oneSym default).state.d_CRC_error_counter = 0 ∧
     ((mkState 5 0 0 0 false []).d_CRC_error_counter = 0 ∨
      ((mkState 5 0 0 0 false []).d_stat = 2 ∧
       (mkState 5 0 0 0 false []).d_sample_counter + 1 =
         (mkState 5 0 0 0 false []).d_preamble_index + BEIDOU_CNAV2_STRING_SYMBOLS ∧
       (default : NavState).flag_CRC_test = true))) ∧
    ((general_work (mkState 1199 600 2 8 true []) oneSym default).state.d_stat = 0 ∧
     (general_work (mkState 1199 600 2 8 true []) oneSym default).state.d_flag_frame_sync
       = false ∧
     (general_work (mkState 1199 600 2 8 true []) oneSym default).state.d_CRC_error_counter
       = 9) ∧
    ((general_work (mkState 1199 600 2 9 true []) oneSym default).state.d_stat = 0 ∧
     (general_work (mkState 1199 600 2 9 true []) oneSym default).state.d_flag_frame_sync
       = false) :=
  ⟨⟨by decide,
    C10_crc_counter_persistence.1 (mkState 5 0 0 0 false []) oneSym default (by decide)⟩,
   C10_crc_counter_persistence.2.1 (mkState 1199 600 2 8 true []) oneSym default
     rfl (by decide) rfl (by decide),
   C10_crc_counter_persistence.2.2 (mkState 1199 600 2 9 true []) oneSym default
     rfl (by decide) rfl (by decide)⟩

/-- Witness for C9: the invariant holds on a reachable state, and a concrete
decode-point state satisfying it keeps all extraction reads in bounds. -/
theorem C9_witness :
    Inv (run (initState 0) []) ∧
    ((∀ i < BEIDOU_CNAV2_STRING_SYMBOLS - d_symbols_per_preamble,
       i + d_symbols_per_preamble <
         ((mkState 1200 601 2 0 true (List.replicate 600 oneSym)).d_symbol_history
           ++ [oneSym]).length) ∧
     24 + 288 ≤ BEIDOU_CNAV2_STRING_SYMBOLS - d_symbols_per_preamble) :=
  ⟨C9_decode_in_bounds.1 0 [],
   C9_decode_in_bounds.2 (mkState 1200 601 2 0 true (List.replicate 600 oneSym)) oneSym
     ⟨by decide, fun _ => by decide⟩ rfl (by decide)⟩

/-- Witness for C3 (amended): on a concrete 312-symbol array the produced bit
string is exactly the converted 24…311 sub-range. -/
theorem C3_witness :
    24 + 288 ≤ (List.replicate 312 (1 : ℚ)).length ∧
    decode_string_data_bits (List.replicate 312 (1 : ℚ)) =
      (((List.replicate 312 (1 : ℚ)).drop 24).take 288).map
        (fun a => if 0 < a then true else false) :=
  ⟨by simp, (C3_symbol_to_bit (List.replicate 312 (1 : ℚ)) (by simp)).1⟩

set_option maxRecDepth 20000 in
/-- Witness for C4 (amended): a concrete zero-free over-full window on which
negation flips the score's sign and preserves `|score|`. -/
theorem C4_witness :
    (∀ g ∈ fullHist601, g.Prompt_I ≠ 0) ∧
    |corrOf (fullHist601.map negSym)| = |corrOf fullHist601| :=
  ⟨by decide, (C4_polarity_invariance fullHist601 (by decide)).2⟩

/-- Witness for C2: a concrete locked state fed 8 (resp. 9) all-failing frame
periods survives (resp. demotes), and a concrete single failing decode
increments the counter. -/
theorem C2_witness :
    ((run (mkState 600 600 2 0 true [])
        (List.replicate (BEIDOU_CNAV2_STRING_SYMBOLS * 8) (oneSym, (default : NavState)))).d_stat = 2 ∧
     (run (mkState 600 600 2 0 true [])
        (List.replicate (BEIDOU_CNAV2_STRING_SYMBOLS * 8) (oneSym, (default : NavState)))).d_flag_frame_sync = true ∧
     (run (mkState 600 600 2 0 true [])
        (List.replicate (BEIDOU_CNAV2_STRING_SYMBOLS * 8) (oneSym, (default : NavState)))).d_CRC_error_counter = 8) ∧
    ((run (mkState 600 600 2 0 true [])
        (List.replicate (BEIDOU_CNAV2_STRING_SYMBOLS * 9) (oneSym, (default : NavState)))).d_stat = 0 ∧
     (run (mkState 600 600 2 0 true [])
        (List.replicate (BEIDOU_CNAV2_STRING_SYMBOLS * 9) (oneSym, (default : NavState)))).d_flag_frame_sync = false) ∧
    (general_work (mkState 1199 600 2 0 true []) oneSym default).state.d_CRC_error_counter = 1 :=
  ⟨(C2_crc_failure_accumulation.2 (mkState 600 600 2 0 true []) _ rfl rfl rfl rfl
      (fun p hp => by rw [List.eq_of_mem_replicate hp]; rfl)).1 (by simp),
   (C2_crc_failure_accumulation.2 (mkState 600 600 2 0 true []) _ rfl rfl rfl rfl
      (fun p hp => by rw [List.eq_of_mem_replicate hp]; rfl)).2 (by simp),
   (C2_crc_failure_accumulation.1 (mkState 1199 600 2 0 true []) oneSym default
      rfl (by decide) rfl).1⟩

/-- Witness for C1: a concrete `NO_LOCK` state with a full template window and
a stream repeating the preamble exactly one frame period later acquires
`PRESYNC` on the first symbol and `LOCKED` exactly one period later. -/
theorem C1_witness :
    ((d_symbols_per_preamble : ℤ) ≤ |corrOf (fullHist ++ [oneSym])| ∧
     (run (mkState 600 0 0 0 false fullHist) [(oneSym, (default : NavState))]).d_stat = 1) ∧
    ((run (mkState 600 0 0 0 false fullHist)
        ((oneSym, (default : NavState)) :: (c1ys1 ++ [(oneSym, (default : NavState))]))).d_stat = 2 ∧
     (run (mkState 600 0 0 0 false fullHist)
        ((oneSym, (default : NavState)) :: (c1ys1 ++ [(oneSym, (default : NavState))]))).d_preamble_index = 1201) :=
  ⟨⟨by decide,
    (C1_acquisition_sequence (mkState 600 0 0 0 false fullHist)
      (oneSym, (default : NavState)) (oneSym, (default : NavState)) c1ys1
      rfl (by decide) (by decide) (by decide) (by decide)).1.1⟩,
   (C1_acquisition_sequence (mkState 600 0 0 0 false fullHist)
      (oneSym, (default : NavState)) (oneSym, (default : NavState)) c1ys1
      rfl (by decide) (by decide) (by decide) (by decide)).2.2⟩

end BeidouB2aTelemetry
